import Mathlib

/-!
Shallow embedding of the solar-forecast ingestion service (`app.py`).

The service fetches solar-irradiation forecasts from an external HTTP API,
stores them in an `irradiation_data` table, computes an average plant output,
renders a chart, and caches the latest per-site result in a process-wide dict
`latest_data`, all under a periodic job `update_data`.

Modelling choices:
- Real numbers of the program (`ghi`, efficiencies, REAL columns) are `Rat`.
- The `irradiation_data` table is a `List Row` in insertion order.
- JSON responses are structures whose fields are `Option`-valued: `none`
  models a missing key, so indexing a missing key is a `KeyError`, modelled
  as `Except.error`.
- The HTTP transport is an oracle `HttpRequest → HttpOutcome`; the
  `requests` library's `raise_for_status` raises exactly for statuses in
  [400, 600), which the `fetch_solcast_data` model reproduces.
- Database strings are `List Char` where character-level operations
  (prefix test, `str.replace`) matter.
- `matplotlib`/`base64` rendering internals are external collaborators;
  `render_png` abstracts them by an opaque encoding of the plotted points.
  Field access on each forecast entry (the part in this repository's code)
  is modelled faithfully.
- Per-site log lines of `update_data` (warning on skip, info on success,
  error on caught exception) are modelled as a returned trace.
-/

/-- One entry of the `forecasts` array of the API response, as a JSON object
whose keys may be absent (`none` = key missing). -/
structure Forecast where
  period_end : Option String
  ghi : Option Rat
  dni : Option Rat
  dhi : Option Rat
deriving Repr, DecidableEq

/-- The parsed JSON body of the API response: a dict that may or may not
carry the key `forecasts`. -/
structure ApiResponse where
  forecasts : Option (List Forecast)
deriving Repr, DecidableEq

/-- One row of the `irradiation_data` table:
`(timestamp TEXT, ghi REAL, dni REAL, dhi REAL, site_id TEXT)`. -/
structure Row where
  timestamp : String
  ghi : Rat
  dni : Rat
  dhi : Rat
  site_id : String
deriving Repr, DecidableEq

/-- A value of the `latest_data` dict: `{'output': ..., 'plot': ...}`. -/
structure CacheEntry where
  output : Rat
  plot : String
deriving Repr, DecidableEq

/-- A configured site: an id plus an efficiency coefficient. -/
structure Site where
  id : String
  efficiency : Rat
deriving Repr, DecidableEq

/-- An outgoing HTTP request (url and headers), as built by
`fetch_solcast_data`. -/
structure HttpRequest where
  url : String
  headers : List (String × String)
deriving Repr, DecidableEq

/-- Outcome of one `requests.get` call: either a raised transport error
(`requests.exceptions.RequestException`) or a response with a status code
and a parsed JSON body. -/
inductive HttpOutcome where
  | transportError (msg : String)
  | response (status : Nat) (body : ApiResponse)
deriving Repr, DecidableEq

/-- The request issued by `fetch_solcast_data`: GET on the forecast URL for
`site_id` with a bearer-token header built from `api_key`. -/
def solcast_request (api_key site_id : String) : HttpRequest :=
  ⟨"https://api.solcast.com.au/radiation/forecasts?site_id=" ++ site_id,
   [("Authorization", "Bearer " ++ api_key)]⟩

/-- Library `requests.Response.raise_for_status` raises `HTTPError` exactly for
client errors (4xx) and server errors (5xx). -/
def raise_for_status_raises (status : Nat) : Bool :=
  400 ≤ status && status < 600

/-- Function `fetch_solcast_data(api_key, site_id)`: issues one GET; any
`RequestException` (transport error, or `HTTPError` from
`raise_for_status`) is caught and the function returns `None`; otherwise it
returns the parsed JSON body. The second component counts the `requests.get`
calls performed (the source issues exactly one, then branches). -/
def fetch_solcast_data (http : HttpRequest → HttpOutcome)
    (api_key site_id : String) : Option ApiResponse × Nat :=
  match http (solcast_request api_key site_id) with
  | .transportError _ => (none, 1)
  | .response status body =>
    if raise_for_status_raises status then (none, 1) else (some body, 1)

/-- Python `s.startswith(p)` on character lists. -/
def startswith (s p : List Char) : Bool :=
  p.isPrefixOf s

/-- Python `s.replace(old, new, 1)`: replace the leftmost occurrence of
`old` in `s` by `new` (at most once). -/
def py_replace_once (s old new : List Char) : List Char :=
  if old.isPrefixOf s then new ++ s.drop old.length
  else
    match s with
    | [] => []
    | c :: rest => c :: py_replace_once rest old new

/-- The connection string actually used by `get_db_connection`, as a
function of the `DATABASE_URL` value: a `postgres://` prefix is rewritten
to `postgresql://` via `str.replace(..., 1)`; other values pass through. -/
def get_db_connection_url (database_url : List Char) : List Char :=
  if startswith database_url ("postgres://".data) then
    py_replace_once database_url ("postgres://".data) ("postgresql://".data)
  else database_url

/-- A database connection mid-transaction: the committed table contents and
the inserts executed but not yet committed. -/
structure Conn where
  committed : List Row
  pending : List Row
deriving Repr, DecidableEq

/-- Statement `cur.execute("INSERT INTO irradiation_data VALUES ...")`: the insert
joins the transaction's pending writes. -/
def execInsert (c : Conn) (r : Row) : Conn :=
  { c with pending := c.pending ++ [r] }

/-- Call `conn.commit()`: pending inserts become part of the table. -/
def commit (c : Conn) : Conn :=
  ⟨c.committed ++ c.pending, []⟩

/-- The insertion loop of `store_data`: for each forecast entry, read
`period_end`, `ghi`, `dni`, `dhi` (in the order the source builds the
parameter tuple; a missing key raises `KeyError`) and execute one INSERT
tagged with `site_id`. -/
def insert_loop (site_id : String) (fs : List Forecast) (conn : Conn) :
    Except String Conn :=
  match fs with
  | [] => .ok conn
  | f :: rest =>
    match f.period_end with
    | none => .error "KeyError: period_end"
    | some pe =>
      match f.ghi with
      | none => .error "KeyError: ghi"
      | some g =>
        match f.dni with
        | none => .error "KeyError: dni"
        | some dn =>
          match f.dhi with
          | none => .error "KeyError: dhi"
          | some dh =>
            insert_loop site_id rest (execInsert conn ⟨pe, g, dn, dh, site_id⟩)

/-- Function `store_data(data, site_id)`: iterates `data['forecasts']` (KeyError if
absent), executes one INSERT per entry, and commits once after the loop.
On success the result is the new table contents; an error is a propagated
exception, in which case nothing was committed and the table keeps the
value `db` it had on entry. -/
def store_data (data : ApiResponse) (site_id : String) (db : List Row) :
    Except String (List Row) :=
  match data.forecasts with
  | none => .error "KeyError: forecasts"
  | some fs =>
    match insert_loop site_id fs ⟨db, []⟩ with
    | .error e => .error e
    | .ok conn => .ok (commit conn).committed

/-- The table contents after a call to `store_data` returns or raises:
on success the committed result, on a propagated exception the unchanged
input table (the single commit was never reached). -/
def table_after_store (data : ApiResponse) (site_id : String)
    (db : List Row) : List Row :=
  match store_data data site_id db with
  | .ok db' => db'
  | .error _ => db

/-- The `ghi` column over the rows of the table whose `site_id` matches
(the rows `SELECT AVG(ghi) ... WHERE site_id = %s` aggregates). -/
def site_ghis (db : List Row) (site_id : String) : List Rat :=
  (db.filter (fun r => r.site_id == site_id)).map Row.ghi

/-- Query `SELECT AVG(ghi) FROM irradiation_data WHERE site_id = %s`: `none`
(SQL NULL) when no rows match, otherwise the arithmetic mean. -/
def avg_ghi (db : List Row) (site_id : String) : Option Rat :=
  match site_ghis db site_id with
  | [] => none
  | xs => some (xs.sum / (xs.length : Rat))

/-- Function `calculate_plant_output(site_id, plant_efficiency)` over table `db`:
`avg_ghi * plant_efficiency if avg_ghi else 0`, where Python truthiness
makes both NULL and 0.0 take the `else` branch. -/
def calculate_plant_output (site_id : String) (plant_efficiency : Rat)
    (db : List Row) : Rat :=
  match avg_ghi db site_id with
  | none => 0
  | some a => if a = 0 then 0 else a * plant_efficiency

/-- The loop of `plot_forecast` collecting, per forecast entry, the
timestamp (`period_end`, KeyError if missing) and the `ghi` value
(KeyError if missing). -/
def plot_points (fs : List Forecast) :
    Except String (List (String × Rat)) :=
  match fs with
  | [] => .ok []
  | f :: rest =>
    match f.period_end with
    | none => .error "KeyError: period_end"
    | some pe =>
      match f.ghi with
      | none => .error "KeyError: ghi"
      | some g =>
        match plot_points rest with
        | .error e => .error e
        | .ok pts => .ok ((pe, g) :: pts)

/-- Abstraction of the matplotlib rendering and base64 encoding of the
chart (external libraries): an opaque encoding of the site and the plotted
points. -/
def render_png (site_id : String) (pts : List (String × Rat)) : String :=
  "png:" ++ site_id ++ ":" ++ toString pts.length

/-- Function `plot_forecast(data, site_id)`: iterates `data['forecasts']`, reads each
entry's timestamp and ghi, and returns the encoded chart image. -/
def plot_forecast (data : ApiResponse) (site_id : String) :
    Except String String :=
  match data.forecasts with
  | none => .error "KeyError: forecasts"
  | some fs =>
    match plot_points fs with
    | .error e => .error e
    | .ok pts => .ok (render_png site_id pts)

/-- Python dict assignment `m[k] = v` on an insertion-ordered association
list: overwrite in place if the key exists, else append. -/
def dict_set (m : List (String × CacheEntry)) (k : String) (v : CacheEntry) :
    List (String × CacheEntry) :=
  if m.any (fun p => p.1 == k) then
    m.map (fun p => if p.1 == k then (k, v) else p)
  else m ++ [(k, v)]

/-- Python dict lookup `m.get(k)`. -/
def dict_get (m : List (String × CacheEntry)) (k : String) :
    Option CacheEntry :=
  (m.find? (fun p => p.1 == k)).map Prod.snd

/-- The site configuration hard-coded in `update_data`. -/
def sites : List Site :=
  [⟨"site1", 15/100⟩, ⟨"site2", 18/100⟩]

/-- The mutable state `update_data` acts on: the `irradiation_data` table
and the `latest_data` dict. -/
structure RunState where
  db : List Row
  cache : List (String × CacheEntry)
deriving Repr, DecidableEq

/-- The log line `update_data` emits for one site: the warning for an
absent/malformed response (`continue`), the info line on success, or the
error line of the per-site `except` handler. -/
inductive SiteLog where
  | warning_no_data
  | info_updated
  | error_updating
deriving Repr, DecidableEq

/-- One iteration of the per-site loop of `update_data`: fetch; on absent
data or missing `forecasts` key log a warning and `continue`; otherwise
store, aggregate, render, and assign the site's `latest_data` entry; any
exception is caught by the per-site handler, leaving the state as it was
when the exception was raised (a `store_data` error commits nothing; a
`plot_forecast` error happens after the store committed). -/
def update_site (api_key : String) (http : HttpRequest → HttpOutcome)
    (st : RunState) (site : Site) : RunState × SiteLog :=
  match (fetch_solcast_data http api_key site.id).1 with
  | none => (st, .warning_no_data)
  | some data =>
    if data.forecasts.isNone then (st, .warning_no_data)
    else
      match store_data data site.id st.db with
      | .error _ => (st, .error_updating)
      | .ok db' =>
        let output := calculate_plant_output site.id site.efficiency db'
        match plot_forecast data site.id with
        | .error _ => (⟨db', st.cache⟩, .error_updating)
        | .ok plot =>
          (⟨db', dict_set st.cache site.id ⟨output, plot⟩⟩, .info_updated)

/-- Job `update_data()`: reads `SOLCAST_API_KEY` (logs an error and returns if
unset or falsy, i.e. the empty string) and runs the per-site loop over the
configured `sites`, threading the table and the `latest_data` dict. The
second component is the trace of per-site log lines, in processing order. -/
def update_data (api_key : Option String)
    (http : HttpRequest → HttpOutcome) (st : RunState) :
    RunState × List (String × SiteLog) :=
  match api_key with
  | none => (st, [])
  | some k =>
    if k = "" then (st, [])
    else
      sites.foldl
        (fun acc site =>
          let r := update_site k http acc.1 site
          (r.1, acc.2 ++ [(site.id, r.2)]))
        (st, [])

/-! ## Helper definitions for the statements -/

/-- A forecast entry carrying all four keys `store_data` reads. -/
def wfForecast (f : Forecast) : Bool :=
  f.period_end.isSome && f.ghi.isSome && f.dni.isSome && f.dhi.isSome

/-- The table row `store_data` inserts for a (well-formed) forecast entry. -/
def forecastRow (site_id : String) (f : Forecast) : Row :=
  ⟨f.period_end.getD "", f.ghi.getD 0, f.dni.getD 0, f.dhi.getD 0, site_id⟩

/-- The C1 scenario table: historical `ghi` values 100, 200, 300 for
`site1`. -/
def exampleDb : List Row :=
  [⟨"t1", 100, 0, 0, "site1"⟩, ⟨"t2", 200, 0, 0, "site1"⟩,
   ⟨"t3", 300, 0, 0, "site1"⟩]

/-! ## Helper lemmas -/

theorem insert_loop_ok (site_id : String) :
    ∀ (fs : List Forecast) (conn : Conn), (∀ f ∈ fs, wfForecast f = true) →
      insert_loop site_id fs conn
        = .ok ⟨conn.committed, conn.pending ++ fs.map (forecastRow site_id)⟩ := by
  intro fs
  induction fs with
  | nil => intro conn _; simp [insert_loop]
  | cons f rest ih =>
    intro conn hwf
    have hf : wfForecast f = true := hwf f (by simp)
    simp only [wfForecast, Bool.and_eq_true, Option.isSome_iff_exists] at hf
    obtain ⟨⟨⟨⟨pe, hpe⟩, g, hg⟩, dn, hdn⟩, dh, hdh⟩ := hf
    have hrest : ∀ f ∈ rest, wfForecast f = true := fun f hf => hwf f (by simp [hf])
    simp only [insert_loop, hpe, hg, hdn, hdh]
    rw [ih (execInsert conn ⟨pe, g, dn, dh, site_id⟩) hrest]
    simp [execInsert, forecastRow, hpe, hg, hdn, hdh, List.append_assoc]

theorem insert_loop_err (site_id : String) :
    ∀ (fs : List Forecast) (conn : Conn), (∃ f ∈ fs, wfForecast f = false) →
      ∃ e, insert_loop site_id fs conn = .error e := by
  intro fs
  induction fs with
  | nil => intro conn h; simp at h
  | cons f rest ih =>
    intro conn h
    by_cases hf : wfForecast f = true
    · simp only [wfForecast, Bool.and_eq_true, Option.isSome_iff_exists] at hf
      obtain ⟨⟨⟨⟨pe, hpe⟩, g, hg⟩, dn, hdn⟩, dh, hdh⟩ := hf
      have hrest : ∃ f ∈ rest, wfForecast f = false := by
        rcases h with ⟨f', hf', hwf'⟩
        rcases List.mem_cons.mp hf' with h1 | h1
        · subst h1; simp [wfForecast, hpe, hg, hdn, hdh] at hwf'
        · exact ⟨f', h1, hwf'⟩
      simp only [insert_loop, hpe, hg, hdn, hdh]
      exact ih _ hrest
    · have hf' : wfForecast f = false := by simpa using hf
      simp only [wfForecast, Bool.and_eq_false_iff] at hf'
      rcases hf' with ((hpe | hg) | hdn) | hdh
      · rcases hpe' : f.period_end with _ | pe
        · exact ⟨"KeyError: period_end", by simp [insert_loop, hpe']⟩
        · rw [hpe'] at hpe; simp at hpe
      · rcases hpe' : f.period_end with _ | pe
        · exact ⟨"KeyError: period_end", by simp [insert_loop, hpe']⟩
        · rcases hg' : f.ghi with _ | g
          · exact ⟨"KeyError: ghi", by simp [insert_loop, hpe', hg']⟩
          · rw [hg'] at hg; simp at hg
      · rcases hpe' : f.period_end with _ | pe
        · exact ⟨"KeyError: period_end", by simp [insert_loop, hpe']⟩
        · rcases hg' : f.ghi with _ | g
          · exact ⟨"KeyError: ghi", by simp [insert_loop, hpe', hg']⟩
          · rcases hdn' : f.dni with _ | dn
            · exact ⟨"KeyError: dni", by simp [insert_loop, hpe', hg', hdn']⟩
            · rw [hdn'] at hdn; simp at hdn
      · rcases hpe' : f.period_end with _ | pe
        · exact ⟨"KeyError: period_end", by simp [insert_loop, hpe']⟩
        · rcases hg' : f.ghi with _ | g
          · exact ⟨"KeyError: ghi", by simp [insert_loop, hpe', hg']⟩
          · rcases hdn' : f.dni with _ | dn
            · exact ⟨"KeyError: dni", by simp [insert_loop, hpe', hg', hdn']⟩
            · rcases hdh' : f.dhi with _ | dh
              · exact ⟨"KeyError: dhi", by simp [insert_loop, hpe', hg', hdn', hdh']⟩
              · rw [hdh'] at hdh; simp at hdh

theorem store_data_ok (data : ApiResponse) (fs : List Forecast)
    (site_id : String) (db : List Row) (hfs : data.forecasts = some fs)
    (hwf : ∀ f ∈ fs, wfForecast f = true) :
    store_data data site_id db = .ok (db ++ fs.map (forecastRow site_id)) := by
  simp only [store_data, hfs]
  rw [insert_loop_ok site_id fs ⟨db, []⟩ hwf]
  simp [commit]

/-! ## Claims -/

/-- C1. `calculate_plant_output(site_id, eff)` over any table state returns
0 when the table has no rows for `site_id`, and otherwise the arithmetic
mean of the `ghi` column over all rows for `site_id` (the entire table
history) times `eff`; on the scenario table with ghi values
[100, 200, 300] for `site1` and eff = 0.15 it returns 30. -/
theorem calculate_plant_output_spec :
    (∀ (site_id : String) (eff : Rat) (db : List Row),
        site_ghis db site_id = [] →
        calculate_plant_output site_id eff db = 0) ∧
    (∀ (site_id : String) (eff : Rat) (db : List Row),
        site_ghis db site_id ≠ [] →
        calculate_plant_output site_id eff db
          = ((site_ghis db site_id).sum
              / ((site_ghis db site_id).length : Rat)) * eff) ∧
    calculate_plant_output "site1" (15/100) exampleDb = 30 := by
  have key : ∀ (site_id : String) (eff : Rat) (db : List Row),
      site_ghis db site_id ≠ [] →
      calculate_plant_output site_id eff db
        = ((site_ghis db site_id).sum
            / ((site_ghis db site_id).length : Rat)) * eff := by
    intro site_id eff db h
    have hsome : avg_ghi db site_id
        = some ((site_ghis db site_id).sum
            / ((site_ghis db site_id).length : Rat)) := by
      unfold avg_ghi
      rcases hxs : site_ghis db site_id with _ | ⟨x, xs⟩
      · exact absurd hxs h
      · rfl
    simp only [calculate_plant_output, hsome]
    rcases eq_or_ne ((site_ghis db site_id).sum
        / ((site_ghis db site_id).length : Rat)) 0 with hz | hz
    · rw [if_pos hz, hz, zero_mul]
    · rw [if_neg hz]
  refine ⟨?_, key, ?_⟩
  · intro site_id eff db h
    simp [calculate_plant_output, avg_ghi, h]
  · rw [key "site1" (15/100) exampleDb (by decide)]
    have hghis : site_ghis exampleDb "site1" = [100, 200, 300] := by decide
    rw [hghis]
    norm_num

/-- Witness for C1 at concrete inputs: an empty table gives 0, and the
scenario table gives the mean of its `ghi` column times the efficiency. -/
theorem calculate_plant_output_spec_witness :
    calculate_plant_output "site1" (15/100) [] = 0 ∧
    calculate_plant_output "site1" (15/100) exampleDb
      = ((site_ghis exampleDb "site1").sum
          / ((site_ghis exampleDb "site1").length : Rat)) * (15/100) :=
  ⟨calculate_plant_output_spec.1 "site1" (15/100) [] (by decide),
   calculate_plant_output_spec.2.1 "site1" (15/100) exampleDb (by decide)⟩

/-- C3. For a response whose `forecasts` array has N (well-formed) entries,
`store_data` appends exactly N rows to the table, one per entry in array
order, each tagged with the given `site_id`, and never removes or
deduplicates existing rows (the old table is a prefix of the new one,
whatever it already contains). -/
theorem store_data_inserts_all :
    ∀ (data : ApiResponse) (fs : List Forecast) (site_id : String)
      (db : List Row),
      data.forecasts = some fs →
      (∀ f ∈ fs, wfForecast f = true) →
      store_data data site_id db
        = .ok (db ++ fs.map (forecastRow site_id)) ∧
      (fs.map (forecastRow site_id)).length = fs.length ∧
      (∀ r ∈ fs.map (forecastRow site_id), r.site_id = site_id) := by
  intro data fs site_id db hfs hwf
  refine ⟨store_data_ok data fs site_id db hfs hwf, by simp, ?_⟩
  intro r hr
  rcases List.mem_map.mp hr with ⟨f, _, rfl⟩
  rfl

/-- Witness for C3: a two-entry response appends exactly its two rows. -/
theorem store_data_inserts_all_witness :
    store_data
      ⟨some [⟨some "t1", some 10, some 1, some 2⟩,
             ⟨some "t2", some 20, some 3, some 4⟩]⟩ "site1"
      [⟨"t0", 5, 5, 5, "site9"⟩]
      = .ok [⟨"t0", 5, 5, 5, "site9"⟩, ⟨"t1", 10, 1, 2, "site1"⟩,
             ⟨"t2", 20, 3, 4, "site1"⟩] :=
  (store_data_inserts_all
      ⟨some [⟨some "t1", some 10, some 1, some 2⟩,
             ⟨some "t2", some 20, some 3, some 4⟩]⟩
      [⟨some "t1", some 10, some 1, some 2⟩,
       ⟨some "t2", some 20, some 3, some 4⟩] "site1"
      [⟨"t0", 5, 5, 5, "site9"⟩] rfl (by decide)).1

/-- C7. `store_data` commits only once, after the whole insertion loop: if
some forecast entry is missing a required key (`period_end`, `ghi`, `dni`
or `dhi`), the `KeyError` propagates as an error and the table is unchanged
by the call — no rows of that call were committed. -/
theorem store_data_atomic_on_error :
    ∀ (data : ApiResponse) (fs : List Forecast) (site_id : String)
      (db : List Row),
      data.forecasts = some fs →
      (∃ f ∈ fs, wfForecast f = false) →
      (∃ e, store_data data site_id db = .error e) ∧
      table_after_store data site_id db = db := by
  intro data fs site_id db hfs hbad
  obtain ⟨e, he⟩ := insert_loop_err site_id fs ⟨db, []⟩ hbad
  have hstore : store_data data site_id db = .error e := by
    simp [store_data, hfs, he]
  exact ⟨⟨e, hstore⟩, by simp [table_after_store, hstore]⟩

/-- Witness for C7: a call whose second entry lacks `ghi` errors out and
leaves the table exactly as it was. -/
theorem store_data_atomic_on_error_witness :
    (∃ e, store_data
        ⟨some [⟨some "t1", some 10, some 1, some 2⟩,
               ⟨some "t2", none, some 3, some 4⟩]⟩ "site1"
        [⟨"t0", 5, 5, 5, "site1"⟩] = .error e) ∧
    table_after_store
        ⟨some [⟨some "t1", some 10, some 1, some 2⟩,
               ⟨some "t2", none, some 3, some 4⟩]⟩ "site1"
        [⟨"t0", 5, 5, 5, "site1"⟩] = [⟨"t0", 5, 5, 5, "site1"⟩] :=
  store_data_atomic_on_error
    ⟨some [⟨some "t1", some 10, some 1, some 2⟩,
           ⟨some "t2", none, some 3, some 4⟩]⟩
    [⟨some "t1", some 10, some 1, some 2⟩,
     ⟨some "t2", none, some 3, some 4⟩] "site1"
    [⟨"t0", 5, 5, 5, "site1"⟩] rfl
    ⟨⟨some "t2", none, some 3, some 4⟩, by decide, by decide⟩

theorem isPrefixOf_append_self :
    ∀ (p r : List Char), p.isPrefixOf (p ++ r) = true := by
  intro p r
  induction p with
  | nil => simp [List.isPrefixOf]
  | cons c cs ih => simp [List.isPrefixOf, ih]

theorem drop_length_append :
    ∀ (p r : List Char), (p ++ r).drop p.length = r := by
  intro p r
  induction p with
  | nil => simp
  | cons c cs ih => simp [ih]

theorem py_replace_once_at_head (s old new : List Char)
    (h : old.isPrefixOf s = true) :
    py_replace_once s old new = new ++ s.drop old.length := by
  rw [py_replace_once.eq_def, if_pos h]

/-- C8. `get_db_connection` rewrites exactly the leading `postgres://`
prefix of `DATABASE_URL` to `postgresql://` (even when the string contains
`postgres://` again later, `str.replace(..., 1)` only touches the leading
occurrence), and passes any value not beginning with `postgres://` through
unchanged. -/
theorem get_db_connection_url_spec :
    (∀ rest : List Char,
        get_db_connection_url ("postgres://".data ++ rest)
          = "postgresql://".data ++ rest) ∧
    (∀ s : List Char, startswith s ("postgres://".data) = false →
        get_db_connection_url s = s) := by
  constructor
  · intro rest
    have hpre : startswith ("postgres://".data ++ rest) ("postgres://".data)
        = true := isPrefixOf_append_self _ _
    simp only [get_db_connection_url, hpre, if_true]
    rw [py_replace_once_at_head _ _ _ (isPrefixOf_append_self _ _),
      drop_length_append]
  · intro s h
    simp [get_db_connection_url, h]

/-- Witness for C8: a URL with the prefix (and a second embedded
occurrence) is rewritten only at the front; a URL without it is returned
unchanged. -/
theorem get_db_connection_url_spec_witness :
    get_db_connection_url ("postgres://h/a?x=postgres://y".data)
      = "postgresql://h/a?x=postgres://y".data ∧
    get_db_connection_url ("mysql://u@h/db".data) = "mysql://u@h/db".data := by
  constructor
  · have h := get_db_connection_url_spec.1 ("h/a?x=postgres://y".data)
    have hs : "postgres://h/a?x=postgres://y".data
        = "postgres://".data ++ "h/a?x=postgres://y".data := by decide
    have hs' : "postgresql://h/a?x=postgres://y".data
        = "postgresql://".data ++ "h/a?x=postgres://y".data := by decide
    rw [hs, hs', h]
  · exact get_db_connection_url_spec.2 ("mysql://u@h/db".data) (by decide)

/-- The C5 scenarios: a transport failure, a server error, and a
redirect-class (non-2xx but non-error) response. -/
def okBody : ApiResponse :=
  ⟨some [⟨some "2024-01-01T00:00:00Z", some 100, some 0, some 0⟩]⟩

def httpTransportFail : HttpRequest → HttpOutcome :=
  fun _ => .transportError "connection refused"

def http500 : HttpRequest → HttpOutcome :=
  fun _ => .response 500 okBody

def http300 : HttpRequest → HttpOutcome :=
  fun _ => .response 300 okBody

/-- C5 counterexample. The claim says any non-2xx status yields `None`,
but `raise_for_status` raises only for 4xx/5xx: on a status-300 response
(non-2xx) whose body parses, `fetch_solcast_data` returns the body, not
`None`. -/
theorem fetch_non2xx_cex :
    ¬ (200 ≤ 300 ∧ 300 ≤ 299) ∧
    (fetch_solcast_data http300 "key" "site1").1 = some okBody := by
  exact ⟨by decide, rfl⟩

/-- C5 (amended). `fetch_solcast_data` makes exactly one request attempt
with no retry; if that request raises a transport error or returns a 4xx
or 5xx status it logs and returns `None` instead of propagating. -/
theorem fetch_error_handling :
    ∀ (http : HttpRequest → HttpOutcome) (api_key site_id : String),
      (fetch_solcast_data http api_key site_id).2 = 1 ∧
      (∀ msg, http (solcast_request api_key site_id) = .transportError msg →
        (fetch_solcast_data http api_key site_id).1 = none) ∧
      (∀ status body,
        http (solcast_request api_key site_id) = .response status body →
        400 ≤ status → status < 600 →
        (fetch_solcast_data http api_key site_id).1 = none) := by
  intro http api_key site_id
  refine ⟨?_, ?_, ?_⟩
  · unfold fetch_solcast_data
    rcases http (solcast_request api_key site_id) with msg | ⟨status, body⟩
    · rfl
    · by_cases h : raise_for_status_raises status = true
      · simp [h]
      · simp [h]
  · intro msg hmsg
    simp [fetch_solcast_data, hmsg]
  · intro status body hresp h4 h6
    have hraise : raise_for_status_raises status = true := by
      simp [raise_for_status_raises, h4, h6]
    simp [fetch_solcast_data, hresp, hraise]

/-- Witness for C5 (amended): at a transport failure and at a 500 response
the result is `None`, and one request was made. -/
theorem fetch_error_handling_witness :
    (fetch_solcast_data httpTransportFail "key" "site1").1 = none ∧
    (fetch_solcast_data http500 "key" "site1").1 = none ∧
    (fetch_solcast_data httpTransportFail "key" "site1").2 = 1 :=
  ⟨(fetch_error_handling httpTransportFail "key" "site1").2.1
      "connection refused" rfl,
   (fetch_error_handling http500 "key" "site1").2.2 500 okBody rfl
      (by decide) (by decide),
   (fetch_error_handling httpTransportFail "key" "site1").1⟩

/-- C9. If `SOLCAST_API_KEY` is unset (`None`) or empty (falsy), then
`update_data` logs an error and returns at once: no site is processed (the
per-site log trace is empty, so no fetch was issued), the table is
untouched and the `latest_data` cache is entirely unchanged. -/
theorem update_data_missing_api_key :
    ∀ (api_key : Option String) (http : HttpRequest → HttpOutcome)
      (st : RunState),
      (api_key = none ∨ api_key = some "") →
      update_data api_key http st = (st, []) := by
  intro api_key http st h
  rcases h with h | h <;> subst h <;> simp [update_data]

/-- Witness for C9: with the key unset, a state with a populated cache is
returned verbatim with an empty trace. -/
theorem update_data_missing_api_key_witness :
    update_data none http500 ⟨[], [("site1", ⟨1, "old"⟩)]⟩
      = (⟨[], [("site1", ⟨1, "old"⟩)]⟩, []) :=
  update_data_missing_api_key none http500 ⟨[], [("site1", ⟨1, "old"⟩)]⟩
    (Or.inl rfl)

theorem find_set_mem (k : String) (v : CacheEntry) :
    ∀ m : List (String × CacheEntry), m.any (fun p => p.1 == k) = true →
      (m.map (fun p => if p.1 == k then (k, v) else p)).find?
          (fun p => p.1 == k) = some (k, v) := by
  intro m
  induction m with
  | nil => intro h; simp at h
  | cons p rest ih =>
    intro h
    by_cases hp : (p.1 == k) = true
    · rw [List.map_cons, if_pos hp, List.find?_cons_of_pos _ (by simp)]
    · have hp' : (p.1 == k) = false := by simpa using hp
      simp only [List.any_cons, hp', Bool.false_or] at h
      rw [List.map_cons, if_neg (by simp [hp']),
        List.find?_cons_of_neg _ (by simp [hp'])]
      exact ih h

theorem find_append_single (k : String) (v : CacheEntry) :
    ∀ m : List (String × CacheEntry), m.any (fun p => p.1 == k) = false →
      (m ++ [(k, v)]).find? (fun p => p.1 == k) = some (k, v) := by
  intro m
  induction m with
  | nil => intro _; rw [List.nil_append, List.find?_cons_of_pos _ (by simp)]
  | cons p rest ih =>
    intro h
    simp only [List.any_cons, Bool.or_eq_false_iff] at h
    rw [List.cons_append, List.find?_cons_of_neg _ (by simp [h.1])]
    exact ih h.2

theorem find_set_other (k k' : String) (v : CacheEntry) (hne : k ≠ k') :
    ∀ m : List (String × CacheEntry),
      (m.map (fun p => if p.1 == k' then (k', v) else p)).find?
          (fun p => p.1 == k) = m.find? (fun p => p.1 == k) := by
  intro m
  induction m with
  | nil => rfl
  | cons p rest ih =>
    by_cases hp : (p.1 == k') = true
    · have hpk : p.1 = k' := by simpa using hp
      have h2 : (p.1 == k) = false := by
        simp [hpk, show k' ≠ k from Ne.symm hne]
      rw [List.map_cons, if_pos hp,
        List.find?_cons_of_neg _ (by simp [show k' ≠ k from Ne.symm hne]),
        List.find?_cons_of_neg _ (by simp [h2]), ih]
    · have hp' : (p.1 == k') = false := by simpa using hp
      by_cases hk : (p.1 == k) = true
      · rw [List.map_cons, if_neg (by simp [hp']),
          @List.find?_cons_of_pos _ (fun q => q.1 == k) p _ hk,
          @List.find?_cons_of_pos _ (fun q => q.1 == k) p _ hk]
      · have hk' : (p.1 == k) = false := by simpa using hk
        rw [List.map_cons, if_neg (by simp [hp']),
          List.find?_cons_of_neg _ (by simp [hk']),
          List.find?_cons_of_neg _ (by simp [hk']), ih]

theorem find_append_single_other (k k' : String) (v : CacheEntry)
    (hne : k ≠ k') :
    ∀ m : List (String × CacheEntry),
      (m ++ [(k', v)]).find? (fun p => p.1 == k)
        = m.find? (fun p => p.1 == k) := by
  intro m
  induction m with
  | nil =>
    rw [List.nil_append,
      List.find?_cons_of_neg _ (by simp [show k' ≠ k from Ne.symm hne])]
  | cons p rest ih =>
    by_cases hk : (p.1 == k) = true
    · rw [List.cons_append,
        @List.find?_cons_of_pos _ (fun q => q.1 == k) p _ hk,
        @List.find?_cons_of_pos _ (fun q => q.1 == k) p _ hk]
    · have hk' : (p.1 == k) = false := by simpa using hk
      rw [List.cons_append, List.find?_cons_of_neg _ (by simp [hk']),
        List.find?_cons_of_neg _ (by simp [hk']), ih]

theorem dict_get_set_self (m : List (String × CacheEntry)) (k : String)
    (v : CacheEntry) : dict_get (dict_set m k v) k = some v := by
  unfold dict_set dict_get
  by_cases hany : m.any (fun p => p.1 == k) = true
  · rw [if_pos hany, find_set_mem k v m hany]
    rfl
  · have hany' : m.any (fun p => p.1 == k) = false := by
      cases h : m.any (fun p => p.1 == k) with
      | false => rfl
      | true => exact absurd h hany
    rw [if_neg hany, find_append_single k v m hany']
    rfl

theorem dict_get_set_other (m : List (String × CacheEntry)) (k k' : String)
    (v : CacheEntry) (hne : k ≠ k') :
    dict_get (dict_set m k' v) k = dict_get m k := by
  unfold dict_set dict_get
  by_cases hany : m.any (fun p => p.1 == k') = true
  · rw [if_pos hany, find_set_other k k' v hne m]
  · rw [if_neg hany, find_append_single_other k k' v hne m]

theorem insert_loop_shape (site_id : String) :
    ∀ (fs : List Forecast) (conn conn' : Conn),
      insert_loop site_id fs conn = .ok conn' →
      conn'.committed = conn.committed ∧
      ∃ rows, conn'.pending = conn.pending ++ rows ∧
        ∀ r ∈ rows, r.site_id = site_id := by
  intro fs
  induction fs with
  | nil =>
    intro conn conn' h
    simp only [insert_loop] at h
    cases h
    exact ⟨rfl, [], by simp, by simp⟩
  | cons f rest ih =>
    intro conn conn' h
    rcases hpe : f.period_end with _ | pe
    · simp [insert_loop, hpe] at h
    · rcases hg : f.ghi with _ | g
      · simp [insert_loop, hpe, hg] at h
      · rcases hdn : f.dni with _ | dn
        · simp [insert_loop, hpe, hg, hdn] at h
        · rcases hdh : f.dhi with _ | dh
          · simp [insert_loop, hpe, hg, hdn, hdh] at h
          · simp only [insert_loop, hpe, hg, hdn, hdh] at h
            obtain ⟨hcom, rows, hpend, htags⟩ := ih _ _ h
            refine ⟨hcom, ⟨pe, g, dn, dh, site_id⟩ :: rows, ?_, ?_⟩
            · rw [hpend]; simp [execInsert]
            · intro r hr
              rcases List.mem_cons.mp hr with h1 | h1
              · subst h1; rfl
              · exact htags r h1

theorem store_data_shape (data : ApiResponse) (site_id : String)
    (db db' : List Row) (h : store_data data site_id db = .ok db') :
    ∃ rows, db' = db ++ rows ∧ ∀ r ∈ rows, r.site_id = site_id := by
  rcases hfc : data.forecasts with _ | fs
  · simp [store_data, hfc] at h
  · simp only [store_data, hfc] at h
    rcases hl : insert_loop site_id fs ⟨db, []⟩ with e | conn
    · rw [hl] at h; simp at h
    · rw [hl] at h
      simp only [Except.ok.injEq] at h
      obtain ⟨hcom, rows, hpend, htags⟩ :=
        insert_loop_shape site_id fs ⟨db, []⟩ conn hl
      refine ⟨rows, ?_, htags⟩
      rw [← h]
      simp [commit, hcom, hpend]

theorem update_site_skip (k : String) (http : HttpRequest → HttpOutcome)
    (st : RunState) (site : Site)
    (h : (fetch_solcast_data http k site.id).1 = none ∨
      ∃ d, (fetch_solcast_data http k site.id).1 = some d ∧
        d.forecasts = none) :
    update_site k http st site = (st, .warning_no_data) := by
  rcases h with h | ⟨d, hd, hfc⟩
  · simp [update_site, h]
  · simp [update_site, hd, hfc]

theorem update_site_not_updated (k : String)
    (http : HttpRequest → HttpOutcome) (st : RunState) (site : Site)
    (h : (update_site k http st site).2 ≠ .info_updated) :
    (update_site k http st site).1.cache = st.cache := by
  rcases hf : (fetch_solcast_data http k site.id).1 with _ | data
  · simp [update_site, hf]
  · rcases hfc : data.forecasts with _ | fs
    · simp [update_site, hf, hfc]
    · rcases hs : store_data data site.id st.db with e | db'
      · simp [update_site, hf, hfc, hs]
      · rcases hp : plot_forecast data site.id with e | plot
        · simp [update_site, hf, hfc, hs, hp]
        · exact absurd (by simp [update_site, hf, hfc, hs, hp]) h

theorem update_site_other_key (k : String)
    (http : HttpRequest → HttpOutcome) (st : RunState) (site : Site)
    (key : String) (hne : key ≠ site.id) :
    dict_get (update_site k http st site).1.cache key
      = dict_get st.cache key := by
  rcases hf : (fetch_solcast_data http k site.id).1 with _ | data
  · simp [update_site, hf]
  · rcases hfc : data.forecasts with _ | fs
    · simp [update_site, hf, hfc]
    · rcases hs : store_data data site.id st.db with e | db'
      · simp [update_site, hf, hfc, hs]
      · rcases hp : plot_forecast data site.id with e | plot
        · simp [update_site, hf, hfc, hs, hp]
        · simp only [update_site, hf, hfc, hs, hp]
          exact dict_get_set_other st.cache key site.id _ hne

theorem update_site_updated_cached (k : String)
    (http : HttpRequest → HttpOutcome) (st : RunState) (site : Site)
    (h : (update_site k http st site).2 = .info_updated) :
    (dict_get (update_site k http st site).1.cache site.id).isSome
      = true := by
  rcases hf : (fetch_solcast_data http k site.id).1 with _ | data
  · simp [update_site, hf] at h
  · rcases hfc : data.forecasts with _ | fs
    · simp [update_site, hf, hfc] at h
    · rcases hs : store_data data site.id st.db with e | db'
      · simp [update_site, hf, hfc, hs] at h
      · rcases hp : plot_forecast data site.id with e | plot
        · simp [update_site, hf, hfc, hs, hp] at h
        · have hcache : (update_site k http st site).1.cache
              = dict_set st.cache site.id
                  ⟨calculate_plant_output site.id site.efficiency db',
                   plot⟩ := by
            simp [update_site, hf, hfc, hs, hp]
          rw [hcache, dict_get_set_self]
          rfl

theorem update_site_key_mono (k : String)
    (http : HttpRequest → HttpOutcome) (st : RunState) (site : Site)
    (key : String) (h : (dict_get st.cache key).isSome = true) :
    (dict_get (update_site k http st site).1.cache key).isSome = true := by
  by_cases hkey : key = site.id
  · subst hkey
    by_cases hupd : (update_site k http st site).2 = .info_updated
    · exact update_site_updated_cached k http st site hupd
    · rw [update_site_not_updated k http st site hupd]
      exact h
  · rw [update_site_other_key k http st site key hkey]
    exact h

theorem update_site_db_shape (k : String)
    (http : HttpRequest → HttpOutcome) (st : RunState) (site : Site) :
    ∃ rows, (update_site k http st site).1.db = st.db ++ rows ∧
      ∀ r ∈ rows, r.site_id = site.id := by
  rcases hf : (fetch_solcast_data http k site.id).1 with _ | data
  · exact ⟨[], by simp [update_site, hf], by simp⟩
  · rcases hfc : data.forecasts with _ | fs
    · exact ⟨[], by simp [update_site, hf, hfc], by simp⟩
    · rcases hs : store_data data site.id st.db with e | db'
      · exact ⟨[], by simp [update_site, hf, hfc, hs], by simp⟩
      · obtain ⟨rows, hdb, htags⟩ := store_data_shape data site.id st.db db' hs
        rcases hp : plot_forecast data site.id with e | plot
        · exact ⟨rows, by simp [update_site, hf, hfc, hs, hp, hdb], htags⟩
        · exact ⟨rows, by simp [update_site, hf, hfc, hs, hp, hdb], htags⟩

theorem update_data_eq (k : String) (http : HttpRequest → HttpOutcome)
    (st : RunState) (hk : k ≠ "") :
    update_data (some k) http st
      = ((update_site k http (update_site k http st ⟨"site1", 15/100⟩).1
            ⟨"site2", 18/100⟩).1,
         [("site1", (update_site k http st ⟨"site1", 15/100⟩).2),
          ("site2", (update_site k http
            (update_site k http st ⟨"site1", 15/100⟩).1
            ⟨"site2", 18/100⟩).2)]) := by
  simp [update_data, sites, hk]

theorem filter_append_tagged (db rows : List Row) (sid sid' : String)
    (hne : sid' ≠ sid) (htags : ∀ r ∈ rows, r.site_id = sid') :
    (db ++ rows).filter (fun r => r.site_id == sid)
      = db.filter (fun r => r.site_id == sid) := by
  rw [List.filter_append]
  have hnil : rows.filter (fun r => r.site_id == sid) = [] := by
    rw [List.filter_eq_nil_iff]
    intro r hr
    simp [htags r hr, hne]
  rw [hnil, List.append_nil]

/-- C10. The key set of `latest_data` is monotonically non-decreasing:
the only write the code performs on it is the per-site dict assignment in
`update_data` (the page handler only reads it), which adds or overwrites a
key and never deletes one, so a key present before a run is still present
after it. -/
theorem latest_data_keys_monotone :
    ∀ (api_key : Option String) (http : HttpRequest → HttpOutcome)
      (st : RunState) (key : String),
      (dict_get st.cache key).isSome = true →
      (dict_get (update_data api_key http st).1.cache key).isSome
        = true := by
  intro api_key http st key h
  rcases api_key with _ | k
  · simpa [update_data] using h
  · by_cases hk : k = ""
    · subst hk; simpa [update_data] using h
    · rw [update_data_eq k http st hk]
      exact update_site_key_mono k http _ _ key
        (update_site_key_mono k http st _ key h)

/-- The C4 scenario: the cache holds an entry for `site1` from an earlier
run; in the next run `site1`'s fetch fails (transport error) while `site2`
succeeds. -/
def old_entry : CacheEntry := ⟨1, "old"⟩

def st_prev : RunState := ⟨[], [("site1", old_entry)]⟩

def oracle_c4 : HttpRequest → HttpOutcome := fun r =>
  if r.url = "https://api.solcast.com.au/radiation/forecasts?site_id=site1"
    then .transportError "simulated outage"
    else .response 200 okBody

/-- C4 counterexample. The cache is NOT entirely rebuilt on a run: here the
run skips `site1` (its only log line for `site1` is the warning, so the run
produced no entry for it), yet after the run `site1`'s cache entry is still
the entry from before the run — an entry surviving from an earlier run. -/
theorem latest_data_not_rebuilt_cex :
    dict_get (update_data (some "KEY") oracle_c4 st_prev).1.cache "site1"
      = some old_entry ∧
    (update_data (some "KEY") oracle_c4 st_prev).2
      = [("site1", .warning_no_data), ("site2", .info_updated)] := by
  constructor <;> decide

/-- C4 (amended). `update_data` updates `latest_data` in place rather than
rebuilding it: a run overwrites or adds entries only for the sites it
successfully processed in that run; the entry at any other key — a site
that failed or was skipped, or any key from an earlier run — survives the
run unchanged. -/
theorem latest_data_in_place_update :
    ∀ (api_key : Option String) (http : HttpRequest → HttpOutcome)
      (st : RunState) (key : String),
      ((key, SiteLog.info_updated) ∉ (update_data api_key http st).2) →
      dict_get (update_data api_key http st).1.cache key
        = dict_get st.cache key := by
  intro api_key http st key hnot
  rcases api_key with _ | k
  · simp [update_data]
  · by_cases hk : k = ""
    · subst hk; simp [update_data]
    · rw [update_data_eq k http st hk] at hnot ⊢
      by_cases h1 : key = "site1"
      · subst h1
        have hne1 : (update_site k http st ⟨"site1", 15/100⟩).2
            ≠ .info_updated := fun he => hnot (by simp [he])
        rw [update_site_other_key k http _ ⟨"site2", 18/100⟩ "site1"
            (by decide),
          update_site_not_updated k http st ⟨"site1", 15/100⟩ hne1]
      · by_cases h2 : key = "site2"
        · subst h2
          have hne2 : (update_site k http
              (update_site k http st ⟨"site1", 15/100⟩).1
              ⟨"site2", 18/100⟩).2 ≠ .info_updated :=
            fun he => hnot (by simp [he])
          rw [update_site_not_updated k http _ ⟨"site2", 18/100⟩ hne2,
            update_site_other_key k http st ⟨"site1", 15/100⟩ "site2"
              (by decide)]
        · rw [update_site_other_key k http _ ⟨"site2", 18/100⟩ key h2,
            update_site_other_key k http st ⟨"site1", 15/100⟩ key h1]

/-- Witness for C4 (amended): in the concrete failed-`site1` run, `site1`'s
cache entry after the run is exactly its entry before the run. -/
theorem latest_data_in_place_update_witness :
    dict_get (update_data (some "KEY") oracle_c4 st_prev).1.cache "site1"
      = dict_get st_prev.cache "site1" :=
  latest_data_in_place_update (some "KEY") oracle_c4 st_prev "site1"
    (by decide)

/-- Witness for C10: after the concrete failed-`site1` run, the key
`site1`, present before, is still present. -/
theorem latest_data_keys_monotone_witness :
    (dict_get (update_data (some "KEY") oracle_c4 st_prev).1.cache
        "site1").isSome = true :=
  latest_data_keys_monotone (some "KEY") oracle_c4 st_prev "site1"
    (by decide)

/-- C2. In every run of `update_data` (with a non-empty key), every
configured site gets its per-site iteration — the run's log trace has one
line per configured site, in order, whatever exceptions or fetch failures
earlier sites hit; a site whose iteration did not succeed (no success log:
it was skipped or its exception was caught) has its `latest_data` entry
unchanged by the run; and a site whose iteration succeeded ends the run
with a cache entry present. -/
theorem update_data_failure_isolation :
    ∀ (k : String) (http : HttpRequest → HttpOutcome) (st : RunState),
      k ≠ "" →
      ((update_data (some k) http st).2.map Prod.fst
        = sites.map Site.id) ∧
      (∀ s ∈ sites,
        ((s.id, SiteLog.info_updated) ∉ (update_data (some k) http st).2) →
        dict_get (update_data (some k) http st).1.cache s.id
          = dict_get st.cache s.id) ∧
      (∀ s ∈ sites,
        ((s.id, SiteLog.info_updated) ∈ (update_data (some k) http st).2) →
        (dict_get (update_data (some k) http st).1.cache s.id).isSome
          = true) := by
  intro k http st hk
  rw [update_data_eq k http st hk]
  refine ⟨by simp [sites], ?_, ?_⟩
  · intro s hs hnot
    simp only [sites, List.mem_cons, List.not_mem_nil, or_false] at hs
    rcases hs with rfl | rfl
    · have hne1 : (update_site k http st ⟨"site1", 15/100⟩).2
          ≠ .info_updated := fun he => hnot (by simp [he])
      show dict_get _ "site1" = dict_get st.cache "site1"
      rw [update_site_other_key k http _ ⟨"site2", 18/100⟩ "site1"
          (by decide),
        update_site_not_updated k http st ⟨"site1", 15/100⟩ hne1]
    · have hne2 : (update_site k http
          (update_site k http st ⟨"site1", 15/100⟩).1
          ⟨"site2", 18/100⟩).2 ≠ .info_updated :=
        fun he => hnot (by simp [he])
      show dict_get _ "site2" = dict_get st.cache "site2"
      rw [update_site_not_updated k http _ ⟨"site2", 18/100⟩ hne2,
        update_site_other_key k http st ⟨"site1", 15/100⟩ "site2"
          (by decide)]
  · intro s hs hmem
    simp only [sites, List.mem_cons, List.not_mem_nil, or_false] at hs
    rcases hs with rfl | rfl
    · have h1 : (update_site k http st ⟨"site1", 15/100⟩).2
          = .info_updated := by
        rcases List.mem_cons.mp hmem with h | h
        · have hsnd : SiteLog.info_updated
              = (update_site k http st ⟨"site1", 15/100⟩).2 :=
            congrArg Prod.snd h
          exact hsnd.symm
        · have hfst : ("site1" : String) = "site2" :=
            congrArg Prod.fst (List.mem_singleton.mp h)
          exact absurd hfst (by decide)
      show (dict_get _ "site1").isSome = true
      exact update_site_key_mono k http _ ⟨"site2", 18/100⟩ "site1"
        (update_site_updated_cached k http st ⟨"site1", 15/100⟩ h1)
    · have h2 : (update_site k http
          (update_site k http st ⟨"site1", 15/100⟩).1
          ⟨"site2", 18/100⟩).2 = .info_updated := by
        rcases List.mem_cons.mp hmem with h | h
        · have hfst : ("site2" : String) = "site1" :=
            congrArg Prod.fst h
          exact absurd hfst (by decide)
        · have hsnd : SiteLog.info_updated
              = (update_site k http
                  (update_site k http st ⟨"site1", 15/100⟩).1
                  ⟨"site2", 18/100⟩).2 :=
            congrArg Prod.snd (List.mem_singleton.mp h)
          exact hsnd.symm
      show (dict_get _ "site2").isSome = true
      exact update_site_updated_cached k http _ ⟨"site2", 18/100⟩ h2

/-- The C2 scenario: `site1`'s response parses but its entry lacks the
`dhi` key, so its per-site processing raises a `KeyError` inside
`store_data`, caught by the per-site handler; `site2` succeeds. -/
def badBody : ApiResponse :=
  ⟨some [⟨some "2024-01-01T00:00:00Z", some 50, some 0, none⟩]⟩

def oracle_c2 : HttpRequest → HttpOutcome := fun r =>
  if r.url = "https://api.solcast.com.au/radiation/forecasts?site_id=site1"
    then .response 200 badBody
    else .response 200 okBody

/-- Witness for C2: in the concrete run where `site1`'s processing raises
and is caught, both sites still got their iteration (trace covers both in
order), `site1`'s cache entry is unchanged (still absent), and `site2` was
cached. -/
theorem update_data_failure_isolation_witness :
    ((update_data (some "KEY") oracle_c2 ⟨[], []⟩).2.map Prod.fst
      = sites.map Site.id) ∧
    dict_get (update_data (some "KEY") oracle_c2 ⟨[], []⟩).1.cache "site1"
      = dict_get (⟨[], []⟩ : RunState).cache "site1" ∧
    (dict_get (update_data (some "KEY") oracle_c2 ⟨[], []⟩).1.cache
        "site2").isSome = true :=
  ⟨(update_data_failure_isolation "KEY" oracle_c2 ⟨[], []⟩ (by decide)).1,
   (update_data_failure_isolation "KEY" oracle_c2 ⟨[], []⟩
      (by decide)).2.1 ⟨"site1", 15/100⟩ (by simp [sites]) (by decide),
   (update_data_failure_isolation "KEY" oracle_c2 ⟨[], []⟩
      (by decide)).2.2 ⟨"site2", 18/100⟩ (by simp [sites]) (by decide)⟩

/-- C6. A configured site whose fetch yields `None`, or a response without
the `forecasts` key, is skipped with the logged warning in that run of
`update_data`: the run's trace carries the warning line for that site, its
`latest_data` entry is unchanged by the run, and the table's rows for that
site are unchanged (nothing was stored for it; success for the site would
instead log the info line after storing, aggregating and rendering). -/
theorem update_data_skip_guard :
    ∀ (k : String) (http : HttpRequest → HttpOutcome) (st : RunState)
      (s : Site), k ≠ "" → s ∈ sites →
      ((fetch_solcast_data http k s.id).1 = none ∨
        ∃ d, (fetch_solcast_data http k s.id).1 = some d ∧
          d.forecasts = none) →
      (s.id, SiteLog.warning_no_data) ∈ (update_data (some k) http st).2 ∧
      dict_get (update_data (some k) http st).1.cache s.id
        = dict_get st.cache s.id ∧
      (update_data (some k) http st).1.db.filter
          (fun r => r.site_id == s.id)
        = st.db.filter (fun r => r.site_id == s.id) := by
  intro k http st s hk hs hskip
  rw [update_data_eq k http st hk]
  simp only [sites, List.mem_cons, List.not_mem_nil, or_false] at hs
  rcases hs with rfl | rfl
  · have h1 : update_site k http st ⟨"site1", 15/100⟩
        = (st, .warning_no_data) :=
      update_site_skip k http st ⟨"site1", 15/100⟩ hskip
    rw [h1]
    obtain ⟨rows, hdb, htags⟩ :=
      update_site_db_shape k http st ⟨"site2", 18/100⟩
    refine ⟨by simp, ?_, ?_⟩
    · show dict_get _ "site1" = dict_get st.cache "site1"
      rw [update_site_other_key k http st ⟨"site2", 18/100⟩ "site1"
          (by decide)]
    · show List.filter _ _ = _
      rw [hdb]
      exact filter_append_tagged st.db rows "site1" "site2" (by decide) htags
  · have h2 : update_site k http
        (update_site k http st ⟨"site1", 15/100⟩).1 ⟨"site2", 18/100⟩
        = ((update_site k http st ⟨"site1", 15/100⟩).1,
           .warning_no_data) :=
      update_site_skip k http _ ⟨"site2", 18/100⟩ hskip
    rw [h2]
    obtain ⟨rows, hdb, htags⟩ :=
      update_site_db_shape k http st ⟨"site1", 15/100⟩
    refine ⟨by simp, ?_, ?_⟩
    · show dict_get _ "site2" = dict_get st.cache "site2"
      rw [update_site_other_key k http st ⟨"site1", 15/100⟩ "site2"
          (by decide)]
    · show List.filter _ _ = _
      rw [hdb]
      exact filter_append_tagged st.db rows "site2" "site1" (by decide) htags

/-- The C6 scenario: `site1`'s fetch gets a 500 (so `fetch_solcast_data`
returns `None`), `site2` succeeds; the table starts with one old `site1`
row. -/
def oracle_c6 : HttpRequest → HttpOutcome := fun r =>
  if r.url = "https://api.solcast.com.au/radiation/forecasts?site_id=site1"
    then .response 500 okBody
    else .response 200 okBody

def st_c6 : RunState := ⟨[⟨"t0", 7, 7, 7, "site1"⟩], []⟩

/-- Witness for C6: in the concrete run, `site1` gets the warning line, its
cache entry stays absent, and its rows in the table are exactly the old
ones. -/
theorem update_data_skip_guard_witness :
    ("site1", SiteLog.warning_no_data)
      ∈ (update_data (some "KEY") oracle_c6 st_c6).2 ∧
    dict_get (update_data (some "KEY") oracle_c6 st_c6).1.cache "site1"
      = dict_get st_c6.cache "site1" ∧
    (update_data (some "KEY") oracle_c6 st_c6).1.db.filter
        (fun r => r.site_id == "site1")
      = st_c6.db.filter (fun r => r.site_id == "site1") :=
  update_data_skip_guard "KEY" oracle_c6 st_c6 ⟨"site1", 15/100⟩
    (by decide) (by simp [sites]) (Or.inl (by decide))
